import Mathlib

/-!
Shallow embedding of the `cl-nestjs-opentelemetry` package (TypeScript) in
Lean 4, together with theorems settling the frozen claims about its
specification.

Modelling conventions:
* JavaScript numbers are modelled as rationals (`Rat`); integer status codes
  as `Nat`.
* A JavaScript `Error` object is modelled by `Err`; its `id` field stands for
  object identity, so "the same error object (`===`)" is value equality of
  `Err`.
* A span is modelled by the ordered log of the operations performed on it
  (`Span.events`); the OpenTelemetry span API never throws, so span
  operations are total functions.
* Promise-valued or throwing computations are modelled by `Except Err`.
  A handler or callback body is modelled by its outcome.
* JavaScript objects used as attribute dictionaries are association lists
  with in-place overwrite on existing keys (`setKey`), matching JS object
  literal/spread semantics for lookups.
-/

/-- Attribute values that the code assigns into attribute records:
strings, numbers, booleans, and the JS `undefined` value (the interceptors
assign possibly-undefined expressions such as `request.route?.path`). -/
inductive AttrVal where
  | str (s : String)
  | num (q : Rat)
  | boolV (b : Bool)
  | undefinedV
deriving DecidableEq

/-- A JavaScript object used as a string-keyed attribute dictionary. -/
def AttrMap : Type := List (String × AttrVal)

instance : DecidableEq AttrMap := by
  unfold AttrMap
  infer_instance

/-- Association-list lookup, first match (keys are unique by construction
because all writes go through `setKey`). -/
def alookup {β : Type} : List (String × β) → String → Option β
  | [], _ => none
  | (k, v) :: r, key => if k = key then some v else alookup r key

/-- Assign `key := v` into a JS object: overwrite in place when the key is
present, append otherwise. -/
def setKey : AttrMap → String → AttrVal → AttrMap
  | [], key, v => [(key, v)]
  | (k, w) :: r, key, v =>
      if k = key then (k, v) :: r else (k, w) :: setKey r key v

/-- Spread `extra` over `base` as in the JS object literal
`\x7b ...base, ...extra \x7d`: every key of `extra` overwrites. -/
def objSpread (base : AttrMap) (extra : AttrMap) : AttrMap :=
  extra.foldl (fun m kv => setKey m kv.1 kv.2) base

/-- JavaScript `v || d` for an optional string value: `undefined` and the
empty string are falsy. -/
def jsOrStr (v : Option String) (d : String) : String :=
  match v with
  | some s => if s = "" then d else s
  | none => d

/-- JavaScript truthiness of an optional string (`undefined` and `''` are
falsy). -/
def jsTruthyStr (v : Option String) : Bool :=
  match v with
  | some s => s != ""
  | none => false

/-- JavaScript `n || d` for an optional numeric status code: `undefined`
and `0` are falsy. -/
def jsOrNat (v : Option Nat) (d : Nat) : Nat :=
  match v with
  | some n => if n = 0 then d else n
  | none => d

/-- Model of a JavaScript `Error` object: `id` stands for the object's
identity, so propagating "the same error object" is equality of `Err`
values. `name` models `error.constructor.name`. -/
structure Err where
  id : Nat
  name : String := "Error"
  message : String
  stack : Option String := none
deriving DecidableEq

/-- Does the second list start with the first? -/
def leadsWith : List Char → List Char → Bool
  | [], _ => true
  | _ :: _, [] => false
  | a :: as, b :: bs => a = b && leadsWith as bs

/-- Does `needle` occur as a contiguous subsequence of the list? -/
def containsSeq (needle : List Char) : List Char → Bool
  | [] => leadsWith needle []
  | c :: r => leadsWith needle (c :: r) || containsSeq needle r

/-- Does `sub` occur as a substring of `s`? Models JS
`String.prototype.includes`. -/
def jsIncludes (s sub : String) : Bool :=
  containsSeq sub.toList s.toList

/-- Span kinds of the OpenTelemetry API (`SpanKind`). -/
inductive SpanKind where
  | internal
  | server
  | client
  | producer
  | consumer
deriving DecidableEq

/-- Span status codes of the OpenTelemetry API (`SpanStatusCode`). -/
inductive SpanStatusCode where
  | unset
  | ok
  | error
deriving DecidableEq

/-- A span status as passed to `span.setStatus`. -/
structure SpanStatus where
  code : SpanStatusCode
  message : Option String := none
deriving DecidableEq

/-- One operation performed on a span, in order. -/
inductive SpanEvent where
  | setAttr (key : String) (v : AttrVal)
  | setStatus (st : SpanStatus)
  | recordException (e : Err)
  | ended
deriving DecidableEq

/-- Model of an OpenTelemetry span: its creation data plus the ordered log
of operations performed on it. `noop` marks the fallback span returned by
`startSpan` when the tracer is disabled. -/
structure Span where
  name : String
  kind : SpanKind := .internal
  initAttributes : AttrMap := []
  noop : Bool := false
  events : List SpanEvent := []
deriving DecidableEq

/-- Record `span.setAttribute(key, v)`. -/
def Span.setAttribute (s : Span) (key : String) (v : AttrVal) : Span :=
  { s with events := s.events ++ [.setAttr key v] }

/-- Record `span.setStatus(st)`. -/
def Span.setStatus (s : Span) (st : SpanStatus) : Span :=
  { s with events := s.events ++ [.setStatus st] }

/-- Record `span.recordException(e)`. -/
def Span.recordException (s : Span) (e : Err) : Span :=
  { s with events := s.events ++ [.recordException e] }

/-- Record `span.end()` (named `endSpan` because `end` is a Lean keyword). -/
def Span.endSpan (s : Span) : Span :=
  { s with events := s.events ++ [.ended] }

/-- Number of `end()` calls recorded on an event log. -/
def countEnds : List SpanEvent → Nat
  | [] => 0
  | .ended :: r => countEnds r + 1
  | _ :: r => countEnds r

/-- Every `end()` in the log happens after some `setStatus`. The boolean
argument records whether a status has been set so far. -/
def endsAfterStatus : List SpanEvent → Bool → Bool
  | [], _ => true
  | .setStatus _ :: r, _ => endsAfterStatus r true
  | .ended :: r, seen => seen && endsAfterStatus r seen
  | _ :: r, seen => endsAfterStatus r seen

/-- Options accepted by `TracingService.startSpan` / `withSpan`
(`kind`, `attributes`; the `parent` context is not modelled). -/
structure SpanOpts where
  kind : Option SpanKind := none
  attributes : Option AttrMap := none
deriving DecidableEq

/-- State of `TracingService`: whether the tracer was initialized in the
constructor (`config.tracing?.enabled !== false`). -/
structure TracingService where
  tracer : Bool
deriving DecidableEq

/-- Model of `TracingService.startSpan`: with a tracer, start a fresh span
with the given kind (default INTERNAL) and attributes (default empty);
without one, fall back to a no-op span (there is no ambient active span in
the model, so `trace.getActiveSpan() || trace.getTracer('noop').startSpan(name)`
yields the no-op span). -/
def TracingService.startSpan (svc : TracingService) (name : String)
    (options : SpanOpts := {}) : Span :=
  if !svc.tracer then
    { name := name, noop := true }
  else
    { name := name
      kind := options.kind.getD .internal
      initAttributes := options.attributes.getD [] }

/-- Model of `TracingService.withSpan(name, fn, options?)`. The body `fn`
is modelled by its outcome. The `try / catch / finally` of the source is
translated branch-wise: on success set status OK then end; on failure
record the exception, set status ERROR with the error's message, rethrow,
then end. Returns the outcome together with the span as finally left. -/
def TracingService.withSpan {α : Type} (svc : TracingService) (name : String)
    (fn : Except Err α) (options : SpanOpts := {}) : Except Err α × Span :=
  let span := svc.startSpan name options
  match fn with
  | .ok result => (.ok result, (span.setStatus { code := .ok }).endSpan)
  | .error e =>
      (.error e,
        ((span.recordException e).setStatus
          { code := .error, message := some e.message }).endSpan)

/-- Claim C1: `withSpan(name, fn)` resolves with `fn`'s value and sets span
status OK on success; on failure it records the exception, sets status
ERROR with the error's message and rethrows the same error object; on both
paths `span.end()` runs exactly once, after the status has been set. -/
theorem withSpan_contract {α : Type} (svc : TracingService) (name : String)
    (options : SpanOpts) (fn : Except Err α) :
    (∀ v : α, fn = .ok v →
      (svc.withSpan name fn options).1 = .ok v ∧
      SpanEvent.setStatus { code := .ok } ∈ (svc.withSpan name fn options).2.events) ∧
    (∀ e : Err, fn = .error e →
      (svc.withSpan name fn options).1 = .error e ∧
      SpanEvent.recordException e ∈ (svc.withSpan name fn options).2.events ∧
      SpanEvent.setStatus { code := .error, message := some e.message } ∈
        (svc.withSpan name fn options).2.events) ∧
    countEnds (svc.withSpan name fn options).2.events = 1 ∧
    endsAfterStatus (svc.withSpan name fn options).2.events false = true := by
  cases fn with
  | ok v =>
      refine ⟨?_, ?_, ?_, ?_⟩
      · intro w hw
        cases hw
        simp [TracingService.withSpan, Span.setStatus, Span.endSpan,
          countEnds, endsAfterStatus]
      · intro e he
        cases he
      · simp [TracingService.withSpan, Span.setStatus, Span.endSpan,
          TracingService.startSpan, countEnds]
        split <;> simp [countEnds]
      · simp [TracingService.withSpan, Span.setStatus, Span.endSpan,
          TracingService.startSpan]
        split <;> simp [endsAfterStatus]
  | error e =>
      refine ⟨?_, ?_, ?_, ?_⟩
      · intro w hw
        cases hw
      · intro e' he
        cases he
        simp [TracingService.withSpan, Span.setStatus, Span.endSpan,
          Span.recordException]
      · simp [TracingService.withSpan, Span.setStatus, Span.endSpan,
          Span.recordException, TracingService.startSpan]
        split <;> simp [countEnds]
      · simp [TracingService.withSpan, Span.setStatus, Span.endSpan,
          Span.recordException, TracingService.startSpan]
        split <;> simp [endsAfterStatus]

/-- Witness for C1: the contract evaluated on a concrete success and a
concrete failure. -/
theorem withSpan_contract_witness :
    ((Except.ok 7 : Except Err Nat) = .ok 7 ∧
      (TracingService.withSpan (α := Nat) ⟨true⟩ "op" (.ok 7) {}).1 = .ok 7) ∧
    ((Except.error ⟨1, "Error", "boom", none⟩ : Except Err Nat) =
        .error ⟨1, "Error", "boom", none⟩ ∧
      (TracingService.withSpan (α := Nat) ⟨true⟩ "op"
        (.error ⟨1, "Error", "boom", none⟩) {}).1 =
        .error ⟨1, "Error", "boom", none⟩) := by
  constructor
  · exact ⟨rfl,
      ((withSpan_contract (α := Nat) ⟨true⟩ "op" {} (.ok 7)).1 7 rfl).1⟩
  · exact ⟨rfl,
      ((withSpan_contract (α := Nat) ⟨true⟩ "op" {}
        (.error ⟨1, "Error", "boom", none⟩)).2.1
        ⟨1, "Error", "boom", none⟩ rfl).1⟩

/-- Lookup distributes over list append (first list wins). -/
theorem alookup_append {β : Type} (l1 l2 : List (String × β)) (key : String) :
    alookup (l1 ++ l2) key =
      match alookup l1 key with
      | some v => some v
      | none => alookup l2 key := by
  induction l1 with
  | nil => simp [alookup]
  | cons kv r ih =>
      obtain ⟨k, v⟩ := kv
      by_cases h : k = key
      · simp [alookup, h]
      · simp [alookup, h, ih]

/-- Lookup after `setKey`: the written key reads back the written value,
all other keys are untouched. -/
theorem alookup_setKey (m : AttrMap) (k key : String) (v : AttrVal) :
    alookup (setKey m k v) key = if k = key then some v else alookup m key := by
  induction m with
  | nil => simp [setKey, alookup]
  | cons kv r ih =>
      obtain ⟨k', w⟩ := kv
      simp only [setKey]
      by_cases h1 : k' = k
      · subst h1
        by_cases h2 : k' = key <;> simp [alookup, h2]
      · simp only [if_neg h1]
        by_cases h2 : k' = key
        · have hk : ¬k = key := fun hk => h1 (h2.trans hk.symm)
          simp [alookup, h2, hk]
        · simp [alookup, h2, ih]

/-- Last-match lookup, used to describe which of several spread entries
wins for a key. -/
def lookupLast (m : AttrMap) (key : String) : Option AttrVal :=
  alookup m.reverse key

/-- Key-by-key semantics of the JS object spread `\x7b ...base, ...extra \x7d`:
for every key, the last entry of `extra` with that key wins, and keys
absent from `extra` keep their value from `base`. -/
theorem alookup_objSpread (base extra : AttrMap) (key : String) :
    alookup (objSpread base extra) key =
      match lookupLast extra key with
      | some v => some v
      | none => alookup base key := by
  induction extra generalizing base with
  | nil => simp [objSpread, lookupLast, alookup]
  | cons kv r ih =>
      obtain ⟨k, v⟩ := kv
      have hspread : objSpread base ((k, v) :: r) = objSpread (setKey base k v) r := rfl
      rw [hspread, ih]
      have hlast : lookupLast ((k, v) :: r) key =
          match lookupLast r key with
          | some w => some w
          | none => alookup [(k, v)] key := by
        simp only [lookupLast, List.reverse_cons]
        rw [alookup_append]
        cases hx : alookup r.reverse key <;> rfl
      rw [hlast]
      cases h : lookupLast r key with
      | some w => simp
      | none =>
          by_cases hk : k = key <;> simp [alookup, hk, alookup_setKey]

/-- Options accepted by the `Trace` decorator (`TraceOptions`); `none`
models an absent key. The specialized decorators may receive a `kind` at
runtime even though the TS type omits it. -/
structure TraceOptions where
  name : Option String := none
  kind : Option SpanKind := none
  attributes : Option AttrMap := none
  recordArgs : Option Bool := none
  recordResult : Option Bool := none
  argNames : Option (List String) := none
deriving DecidableEq

/-- The metadata record stored by `Trace` under `TRACE_METADATA_KEY`:
the options plus `originalMethodName`. -/
structure TraceMetadata where
  name : Option String := none
  kind : Option SpanKind := none
  attributes : Option AttrMap := none
  recordArgs : Option Bool := none
  recordResult : Option Bool := none
  argNames : Option (List String) := none
  originalMethodName : String
deriving DecidableEq

/-- Model of the `Trace(options)` decorator applied to a method named
`propertyKey`: stores `\x7b ...options, originalMethodName \x7d`. -/
def Trace (options : TraceOptions) (propertyKey : String) : TraceMetadata :=
  { name := options.name
    kind := options.kind
    attributes := options.attributes
    recordArgs := options.recordArgs
    recordResult := options.recordResult
    argNames := options.argNames
    originalMethodName := propertyKey }

/-- Conditional attribute entry, modelling the JS pattern
`...(v && \x7b key: v \x7d)`: spread nothing when `v` is falsy. -/
def condAttr (v : Option String) (key : String) : AttrMap :=
  if jsTruthyStr v then [(key, .str (v.getD ""))] else []

/-- Model of `TraceHttp(options)`: spreads the caller's options first, then
forces `kind: SERVER` and merges the preset attribute over the caller's. -/
def TraceHttp (options : TraceOptions) (propertyKey : String) : TraceMetadata :=
  Trace
    { options with
      kind := some .server
      attributes := some (objSpread [("operation.type", .str "http")]
        (options.attributes.getD [])) }
    propertyKey

/-- Model of `TraceDb(options)`: destructures `operation`/`table` out of the
options, forces `kind: CLIENT`, and merges preset attributes
(`operation.type`, conditional `db.operation`/`db.name`) under the
caller's. -/
def TraceDb (operation table : Option String) (traceOptions : TraceOptions)
    (propertyKey : String) : TraceMetadata :=
  Trace
    { traceOptions with
      kind := some .client
      attributes := some (objSpread
        (objSpread
          (objSpread [("operation.type", .str "database")]
            (condAttr operation "db.operation"))
          (condAttr table "db.name"))
        (traceOptions.attributes.getD [])) }
    propertyKey

/-- Model of `TraceExternal(options)`: destructures `service` out of the
options, forces `kind: CLIENT`, preset attributes `operation.type` and
conditional `external.service`. -/
def TraceExternal (service : Option String) (traceOptions : TraceOptions)
    (propertyKey : String) : TraceMetadata :=
  Trace
    { traceOptions with
      kind := some .client
      attributes := some (objSpread
        (objSpread [("operation.type", .str "external")]
          (condAttr service "external.service"))
        (traceOptions.attributes.getD [])) }
    propertyKey

/-- Model of `TraceBusiness(options)`: forces `kind: INTERNAL`, preset
attribute `operation.type: business`. -/
def TraceBusiness (options : TraceOptions) (propertyKey : String) :
    TraceMetadata :=
  Trace
    { options with
      kind := some .internal
      attributes := some (objSpread [("operation.type", .str "business")]
        (options.attributes.getD [])) }
    propertyKey

/-- Options accepted by the `Metrics` decorator (`MetricsOptions`). -/
structure MetricsOptions where
  counter : Option String := none
  histogram : Option String := none
  attributes : Option AttrMap := none
  recordArgs : Option Bool := none
  argNames : Option (List String) := none
  recordStatus : Option Bool := none
deriving DecidableEq

/-- The metadata record stored by `Metrics` under `METRICS_METADATA_KEY`. -/
structure MetricsMetadata where
  counter : Option String := none
  histogram : Option String := none
  attributes : Option AttrMap := none
  recordArgs : Option Bool := none
  argNames : Option (List String) := none
  recordStatus : Option Bool := none
  originalMethodName : String
deriving DecidableEq

/-- Model of the `Metrics(options)` decorator applied to a method named
`propertyKey`: stores `\x7b ...options, originalMethodName \x7d`. -/
def Metrics (options : MetricsOptions) (propertyKey : String) :
    MetricsMetadata :=
  { counter := options.counter
    histogram := options.histogram
    attributes := options.attributes
    recordArgs := options.recordArgs
    argNames := options.argNames
    recordStatus := options.recordStatus
    originalMethodName := propertyKey }

/-- Field-wise spread of `extra` over `base`, modelling `\x7b ...base-literal,
...extra \x7d` for an options record: every key present on `extra`
overwrites the base literal's value. -/
def spreadMetricsOver (base extra : MetricsOptions) : MetricsOptions :=
  { counter := match extra.counter with
      | some v => some v
      | none => base.counter
    histogram := match extra.histogram with
      | some v => some v
      | none => base.histogram
    attributes := match extra.attributes with
      | some v => some v
      | none => base.attributes
    recordArgs := match extra.recordArgs with
      | some v => some v
      | none => base.recordArgs
    argNames := match extra.argNames with
      | some v => some v
      | none => base.argNames
    recordStatus := match extra.recordStatus with
      | some v => some v
      | none => base.recordStatus }

/-- Model of `MetricsHttp(options)`: builds the preset literal (defaulted
counter and histogram names, merged attributes, `recordStatus: true`) and
then spreads the caller's options over it — the spread comes last in the
source object literal. -/
def MetricsHttp (options : MetricsOptions) (propertyKey : String) :
    MetricsMetadata :=
  Metrics
    (spreadMetricsOver
      { counter := some (jsOrStr options.counter "http_requests_total")
        histogram :=
          some (jsOrStr options.histogram "http_request_duration_seconds")
        attributes := some (objSpread [("operation.type", .str "http")]
          (options.attributes.getD []))
        recordStatus := some true }
      options)
    propertyKey

/-- Model of `MetricsDb(options)`: destructures `operation`/`table`, builds
the preset literal and spreads the remaining caller options over it. -/
def MetricsDb (operation table : Option String)
    (metricsOptions : MetricsOptions) (propertyKey : String) :
    MetricsMetadata :=
  Metrics
    (spreadMetricsOver
      { counter := some (jsOrStr metricsOptions.counter "db_operations_total")
        histogram :=
          some (jsOrStr metricsOptions.histogram "db_operation_duration_seconds")
        attributes := some (objSpread
          (objSpread
            (objSpread [("operation.type", .str "database")]
              (condAttr operation "db.operation"))
            (condAttr table "db.name"))
          (metricsOptions.attributes.getD []))
        recordStatus := some true }
      metricsOptions)
    propertyKey

/-- Model of `MetricsBusiness(options)`: destructures `operation`, builds
the preset literal and spreads the remaining caller options over it. -/
def MetricsBusiness (operation : Option String)
    (metricsOptions : MetricsOptions) (propertyKey : String) :
    MetricsMetadata :=
  Metrics
    (spreadMetricsOver
      { counter :=
          some (jsOrStr metricsOptions.counter "business_operations_total")
        histogram :=
          some (jsOrStr metricsOptions.histogram
            "business_operation_duration_seconds")
        attributes := some (objSpread
          (objSpread [("operation.type", .str "business")]
            (condAttr operation "business.operation"))
          (metricsOptions.attributes.getD []))
        recordStatus := some true }
      metricsOptions)
    propertyKey

/-- First-defined option wins (JS "earlier spread entry loses" helper used
to phrase merge lookups). -/
def orFirst {β : Type} (a b : Option β) : Option β :=
  match a with
  | some v => some v
  | none => b

/-- Restatement of `alookup_objSpread` through `orFirst`. -/
theorem alookup_objSpread_orFirst (base extra : AttrMap) (key : String) :
    alookup (objSpread base extra) key =
      orFirst (lookupLast extra key) (alookup base key) := by
  rw [alookup_objSpread]
  cases lookupLast extra key <;> rfl

/-- Claim C2 (counterexample): contrary to the claim, a metrics preset does
not preserve preset attribute keys absent from the caller's attributes —
`MetricsHttp` with caller attributes `\x7b custom: 'x' \x7d` loses the preset
key `operation.type`, because the source spreads the caller's options after
the merged attribute literal. -/
theorem metrics_http_preset_attribute_lost :
    ¬ alookup
        ((MetricsHttp { attributes := some [("custom", AttrVal.str "x")] }
            "m").attributes.getD [])
        "operation.type" = some (AttrVal.str "http") := by
  decide

/-- Claim C2 (amended): the four trace presets behave exactly as claimed —
fixed kind, caller fields preserved, attributes merged key-by-key with
preset keys first and caller keys overriding. The three metrics presets
spread the caller's options last instead: counter and histogram names still
default when absent and `recordStatus` defaults to `true`, but a
caller-supplied `attributes` object replaces the merged preset attributes
entirely (preset keys are lost), and caller-supplied `recordStatus`
overrides the preset's `true`. -/
theorem decorator_preset_merge_amended :
    (∀ (options : TraceOptions) (pk key : String),
      (TraceHttp options pk).kind = some SpanKind.server ∧
      (TraceHttp options pk).name = options.name ∧
      (TraceHttp options pk).recordArgs = options.recordArgs ∧
      (TraceHttp options pk).recordResult = options.recordResult ∧
      (TraceHttp options pk).argNames = options.argNames ∧
      (TraceHttp options pk).originalMethodName = pk ∧
      alookup ((TraceHttp options pk).attributes.getD []) key =
        orFirst (lookupLast (options.attributes.getD []) key)
          (alookup [("operation.type", AttrVal.str "http")] key)) ∧
    (∀ (operation table : Option String) (options : TraceOptions)
        (pk key : String),
      (TraceDb operation table options pk).kind = some SpanKind.client ∧
      (TraceDb operation table options pk).name = options.name ∧
      (TraceDb operation table options pk).recordArgs = options.recordArgs ∧
      (TraceDb operation table options pk).recordResult =
        options.recordResult ∧
      (TraceDb operation table options pk).argNames = options.argNames ∧
      (TraceDb operation table options pk).originalMethodName = pk ∧
      alookup ((TraceDb operation table options pk).attributes.getD []) key =
        orFirst (lookupLast (options.attributes.getD []) key)
          (alookup (objSpread
            (objSpread [("operation.type", AttrVal.str "database")]
              (condAttr operation "db.operation"))
            (condAttr table "db.name")) key)) ∧
    (∀ (service : Option String) (options : TraceOptions) (pk key : String),
      (TraceExternal service options pk).kind = some SpanKind.client ∧
      (TraceExternal service options pk).name = options.name ∧
      (TraceExternal service options pk).recordArgs = options.recordArgs ∧
      (TraceExternal service options pk).recordResult =
        options.recordResult ∧
      (TraceExternal service options pk).argNames = options.argNames ∧
      (TraceExternal service options pk).originalMethodName = pk ∧
      alookup ((TraceExternal service options pk).attributes.getD []) key =
        orFirst (lookupLast (options.attributes.getD []) key)
          (alookup (objSpread [("operation.type", AttrVal.str "external")]
            (condAttr service "external.service")) key)) ∧
    (∀ (options : TraceOptions) (pk key : String),
      (TraceBusiness options pk).kind = some SpanKind.internal ∧
      (TraceBusiness options pk).name = options.name ∧
      (TraceBusiness options pk).recordArgs = options.recordArgs ∧
      (TraceBusiness options pk).recordResult = options.recordResult ∧
      (TraceBusiness options pk).argNames = options.argNames ∧
      (TraceBusiness options pk).originalMethodName = pk ∧
      alookup ((TraceBusiness options pk).attributes.getD []) key =
        orFirst (lookupLast (options.attributes.getD []) key)
          (alookup [("operation.type", AttrVal.str "business")] key)) ∧
    (∀ (options : MetricsOptions) (pk : String),
      (MetricsHttp options pk).counter =
        some (options.counter.getD "http_requests_total") ∧
      (MetricsHttp options pk).histogram =
        some (options.histogram.getD "http_request_duration_seconds") ∧
      (MetricsHttp options pk).attributes =
        some (match options.attributes with
          | some a => a
          | none => [("operation.type", AttrVal.str "http")]) ∧
      (MetricsHttp options pk).recordStatus =
        some (options.recordStatus.getD true) ∧
      (MetricsHttp options pk).recordArgs = options.recordArgs ∧
      (MetricsHttp options pk).argNames = options.argNames ∧
      (MetricsHttp options pk).originalMethodName = pk) ∧
    (∀ (operation table : Option String) (options : MetricsOptions)
        (pk : String),
      (MetricsDb operation table options pk).counter =
        some (options.counter.getD "db_operations_total") ∧
      (MetricsDb operation table options pk).histogram =
        some (options.histogram.getD "db_operation_duration_seconds") ∧
      (MetricsDb operation table options pk).attributes =
        some (match options.attributes with
          | some a => a
          | none => objSpread
              (objSpread [("operation.type", AttrVal.str "database")]
                (condAttr operation "db.operation"))
              (condAttr table "db.name")) ∧
      (MetricsDb operation table options pk).recordStatus =
        some (options.recordStatus.getD true) ∧
      (MetricsDb operation table options pk).recordArgs =
        options.recordArgs ∧
      (MetricsDb operation table options pk).argNames = options.argNames ∧
      (MetricsDb operation table options pk).originalMethodName = pk) ∧
    (∀ (operation : Option String) (options : MetricsOptions) (pk : String),
      (MetricsBusiness operation options pk).counter =
        some (options.counter.getD "business_operations_total") ∧
      (MetricsBusiness operation options pk).histogram =
        some (options.histogram.getD "business_operation_duration_seconds") ∧
      (MetricsBusiness operation options pk).attributes =
        some (match options.attributes with
          | some a => a
          | none => objSpread [("operation.type", AttrVal.str "business")]
              (condAttr operation "business.operation")) ∧
      (MetricsBusiness operation options pk).recordStatus =
        some (options.recordStatus.getD true) ∧
      (MetricsBusiness operation options pk).recordArgs =
        options.recordArgs ∧
      (MetricsBusiness operation options pk).argNames = options.argNames ∧
      (MetricsBusiness operation options pk).originalMethodName = pk) := by
  refine ⟨?_, ?_, ?_, ?_, ?_, ?_, ?_⟩
  · intro options pk key
    exact ⟨rfl, rfl, rfl, rfl, rfl, rfl,
      alookup_objSpread_orFirst _ _ _⟩
  · intro operation table options pk key
    exact ⟨rfl, rfl, rfl, rfl, rfl, rfl,
      alookup_objSpread_orFirst _ _ _⟩
  · intro service options pk key
    exact ⟨rfl, rfl, rfl, rfl, rfl, rfl,
      alookup_objSpread_orFirst _ _ _⟩
  · intro options pk key
    exact ⟨rfl, rfl, rfl, rfl, rfl, rfl,
      alookup_objSpread_orFirst _ _ _⟩
  · intro options pk
    obtain ⟨c, hg, a, ra, an, rs⟩ := options
    refine ⟨?_, ?_, ?_, ?_, ?_, ?_, rfl⟩
    · cases c <;> rfl
    · cases hg <;> rfl
    · cases a <;> rfl
    · cases rs <;> rfl
    · cases ra <;> rfl
    · cases an <;> rfl
  · intro operation table options pk
    obtain ⟨c, hg, a, ra, an, rs⟩ := options
    refine ⟨?_, ?_, ?_, ?_, ?_, ?_, rfl⟩
    · cases c <;> rfl
    · cases hg <;> rfl
    · cases a <;> rfl
    · cases rs <;> rfl
    · cases ra <;> rfl
    · cases an <;> rfl
  · intro operation options pk
    obtain ⟨c, hg, a, ra, an, rs⟩ := options
    refine ⟨?_, ?_, ?_, ?_, ?_, ?_, rfl⟩
    · cases c <;> rfl
    · cases hg <;> rfl
    · cases a <;> rfl
    · cases rs <;> rfl
    · cases ra <;> rfl
    · cases an <;> rfl

/-- Model of a JavaScript number that may be `NaN` (the result of
`parseFloat`/`parseInt` on an unparseable string). -/
inductive JSNumber where
  | val (q : Rat)
  | nan
deriving DecidableEq

/-- The `logging` sub-config of `OpenTelemetryConfig`. The `level` field is
a string because the source casts the environment value without
validation. -/
structure LoggingConfig where
  console : Option Bool := none
  file : Option Bool := none
  logDir : Option String := none
  level : Option String := none
  maxSize : Option String := none
  maxFiles : Option String := none
  datePattern : Option String := none
deriving DecidableEq

/-- The `tracing` sub-config of `OpenTelemetryConfig`. -/
structure TracingConfig where
  enabled : Option Bool := none
  sampleRate : Option JSNumber := none
deriving DecidableEq

/-- The `metrics` sub-config of `OpenTelemetryConfig`. -/
structure MetricsConfig where
  enabled : Option Bool := none
  interval : Option JSNumber := none
deriving DecidableEq

/-- Model of the `OpenTelemetryConfig` interface. -/
structure OpenTelemetryConfig where
  serviceName : String
  serviceVersion : Option String := none
  environment : Option String := none
  otlpEndpoint : Option String := none
  jaegerEndpoint : Option String := none
  prometheusEndpoint : Option String := none
  logging : Option LoggingConfig := none
  tracing : Option TracingConfig := none
  metrics : Option MetricsConfig := none
deriving DecidableEq

/-- Model of the `TracingService` constructor: the tracer is initialized
unless `config.tracing?.enabled === false`. -/
def TracingService.create (config : OpenTelemetryConfig) : TracingService :=
  { tracer := !((config.tracing.bind TracingConfig.enabled) == some false) }

/-- Which meter factory method created an instrument. -/
inductive InstrKind where
  | counter
  | histogram
  | gauge
deriving DecidableEq

/-- Model of a metric instrument returned by the meter. `id` stands for
object identity: distinct meter creations yield distinct ids. -/
structure Instrument where
  id : Nat
  name : String
  description : String
  unit : String
deriving DecidableEq

/-- Model of the underlying OpenTelemetry meter: a fresh-identity counter
plus the log of every creation call made on it (kind and name). -/
structure Meter where
  nextId : Nat := 0
  createLog : List (InstrKind × String) := []
deriving DecidableEq

/-- One creation call on the meter (`meter.createCounter` /
`createHistogram` / `createGauge`): returns a fresh instrument and the
meter with the call logged. -/
def Meter.createInstrument (m : Meter) (k : InstrKind)
    (name description u : String) : Instrument × Meter :=
  (⟨m.nextId, name, description, u⟩,
    ⟨m.nextId + 1, m.createLog ++ [(k, name)]⟩)

/-- One recorded measurement (`counter.add` / `histogram.record` /
`gauge.record`), identified by the instrument's id. -/
structure MetricRecord where
  instrument : Nat
  value : Rat
  attributes : AttrMap
deriving DecidableEq

/-- Polymorphic variant of `setKey` for instrument maps, modelling JS
`Map.prototype.set`. -/
def setEntry {β : Type} : List (String × β) → String → β → List (String × β)
  | [], key, v => [(key, v)]
  | (k, w) :: r, key, v =>
      if k = key then (k, v) :: r else (k, w) :: setEntry r key v

/-- Lookup after `setEntry`, the polymorphic counterpart of
`alookup_setKey`. -/
theorem alookup_setEntry {β : Type} (l : List (String × β)) (k key : String)
    (v : β) :
    alookup (setEntry l k v) key = if k = key then some v else alookup l key := by
  induction l with
  | nil => simp [setEntry, alookup]
  | cons kv r ih =>
      obtain ⟨k', w⟩ := kv
      simp only [setEntry]
      by_cases h1 : k' = k
      · subst h1
        by_cases h2 : k' = key <;> simp [alookup, h2]
      · simp only [if_neg h1]
        by_cases h2 : k' = key
        · have hk : ¬k = key := fun hk => h1 (h2.trans hk.symm)
          simp [alookup, h2, hk]
        · simp [alookup, h2, ih]

/-- State of `MetricsService`: the optional meter, the three name-keyed
instrument caches, the five common instruments set by `onModuleInit`, and
the log of all recorded measurements. -/
structure MetricsService where
  meter : Option Meter
  counters : List (String × Instrument) := []
  histograms : List (String × Instrument) := []
  gauges : List (String × Instrument) := []
  records : List MetricRecord := []
  httpRequestsTotal : Option Instrument := none
  httpRequestDuration : Option Instrument := none
  activeConnections : Option Instrument := none
  errorCounter : Option Instrument := none
  businessMetrics : Option Instrument := none
deriving DecidableEq

/-- Model of the `MetricsService` constructor: the meter is initialized
unless `config.metrics?.enabled === false`. -/
def MetricsService.create (config : OpenTelemetryConfig) : MetricsService :=
  { meter :=
      if (config.metrics.bind MetricsConfig.enabled) == some false then none
      else some {} }

/-- Model of `initializeCommonMetrics`: create the five common instruments
on the meter and store them in the caches. -/
def MetricsService.initializeCommonMetrics (s : MetricsService) (m : Meter) :
    MetricsService :=
  let p1 := m.createInstrument .counter "http_requests_total"
    "HTTP 请求总数" "1"
  let p2 := p1.2.createInstrument .histogram "http_request_duration_seconds"
    "HTTP 请求持续时间（秒）" "s"
  let p3 := p2.2.createInstrument .gauge "active_connections" "活跃连接数" "1"
  let p4 := p3.2.createInstrument .counter "errors_total" "错误总数" "1"
  let p5 := p4.2.createInstrument .counter "business_events_total"
    "业务事件总数" "1"
  { s with
    meter := some p5.2
    httpRequestsTotal := some p1.1
    httpRequestDuration := some p2.1
    activeConnections := some p3.1
    errorCounter := some p4.1
    businessMetrics := some p5.1
    counters := setEntry
      (setEntry (setEntry s.counters "http_requests_total" p1.1)
        "errors_total" p4.1)
      "business_events_total" p5.1
    histograms := setEntry s.histograms "http_request_duration_seconds" p2.1
    gauges := setEntry s.gauges "active_connections" p3.1 }

/-- Model of `MetricsService.onModuleInit`: initialize the common metrics
when the meter exists, otherwise return. -/
def MetricsService.onModuleInit (s : MetricsService) : MetricsService :=
  match s.meter with
  | none => s
  | some m => s.initializeCommonMetrics m

/-- The error thrown by the explicit instrument-creation methods when the
meter was never initialized. -/
def disabledErr : Err := { id := 0, message := "指标已禁用或测量器未初始化" }

/-- Model of `MetricsService.createCounter`: throw when the meter is
missing; return the cached instrument when the name is known; otherwise
create on the meter (with defaulted description and unit) and cache. -/
def MetricsService.createCounter (s : MetricsService) (name : String)
    (description : Option String := none) (u : Option String := none) :
    Except Err (Instrument × MetricsService) :=
  match s.meter with
  | none => .error disabledErr
  | some m =>
      match alookup s.counters name with
      | some c => .ok (c, s)
      | none =>
          let p := m.createInstrument .counter name
            (jsOrStr description (name ++ " 的计数器")) (jsOrStr u "1")
          .ok (p.1,
            { s with meter := some p.2
                     counters := setEntry s.counters name p.1 })

/-- Model of `MetricsService.createHistogram` (same shape as
`createCounter`). -/
def MetricsService.createHistogram (s : MetricsService) (name : String)
    (description : Option String := none) (u : Option String := none) :
    Except Err (Instrument × MetricsService) :=
  match s.meter with
  | none => .error disabledErr
  | some m =>
      match alookup s.histograms name with
      | some h => .ok (h, s)
      | none =>
          let p := m.createInstrument .histogram name
            (jsOrStr description (name ++ " 的直方图")) (jsOrStr u "1")
          .ok (p.1,
            { s with meter := some p.2
                     histograms := setEntry s.histograms name p.1 })

/-- Model of `MetricsService.createGauge` (same shape as `createCounter`;
the `valueType: DOUBLE` option has no observable counterpart here). -/
def MetricsService.createGauge (s : MetricsService) (name : String)
    (description : Option String := none) (u : Option String := none) :
    Except Err (Instrument × MetricsService) :=
  match s.meter with
  | none => .error disabledErr
  | some m =>
      match alookup s.gauges name with
      | some g => .ok (g, s)
      | none =>
          let p := m.createInstrument .gauge name
            (jsOrStr description (name ++ " 的仪表盘")) (jsOrStr u "1")
          .ok (p.1,
            { s with meter := some p.2
                     gauges := setEntry s.gauges name p.1 })

/-- Record a measurement on an instrument (`add` / `record`). -/
def MetricsService.addRecord (s : MetricsService) (instr : Instrument)
    (value : Rat) (attributes : AttrMap) : MetricsService :=
  { s with records := s.records ++ [⟨instr.id, value, attributes⟩] }

/-- Model of `incrementHttpRequests`: add 1 to the common HTTP counter when
it was initialized, else do nothing. -/
def MetricsService.incrementHttpRequests (s : MetricsService)
    (method route : String) (statusCode : Nat) : MetricsService :=
  match s.httpRequestsTotal with
  | some c => s.addRecord c 1
      [("method", .str method), ("route", .str route),
        ("status_code", .str (toString statusCode))]
  | none => s

/-- Model of `recordHttpRequestDuration`: record `duration / 1000`
(converted to seconds) on the common HTTP duration histogram when it was
initialized, else do nothing. -/
def MetricsService.recordHttpRequestDuration (s : MetricsService)
    (duration : Rat) (method route : String) (statusCode : Nat) :
    MetricsService :=
  match s.httpRequestDuration with
  | some h => s.addRecord h (duration / 1000)
      [("method", .str method), ("route", .str route),
        ("status_code", .str (toString statusCode))]
  | none => s

/-- Model of `setActiveConnections`. -/
def MetricsService.setActiveConnections (s : MetricsService) (count : Rat) :
    MetricsService :=
  match s.activeConnections with
  | some g => s.addRecord g count []
  | none => s

/-- Model of `incrementErrors` (`context || 'unknown'`). -/
def MetricsService.incrementErrors (s : MetricsService) (errorType : String)
    (ctx : Option String := none) : MetricsService :=
  match s.errorCounter with
  | some c => s.addRecord c 1
      [("error_type", .str errorType),
        ("context", .str (jsOrStr ctx "unknown"))]
  | none => s

/-- Model of `recordBusinessEvent`: `\x7b event_type, ...attributes \x7d`. -/
def MetricsService.recordBusinessEvent (s : MetricsService)
    (eventType : String) (value : Rat := 1) (attributes : AttrMap := []) :
    MetricsService :=
  match s.businessMetrics with
  | some c => s.addRecord c value
      (objSpread [("event_type", .str eventType)] attributes)
  | none => s

/-- Model of `incrementCounter`: look the name up in the counter cache,
silently do nothing when it is unknown. -/
def MetricsService.incrementCounter (s : MetricsService) (name : String)
    (value : Rat := 1) (attributes : AttrMap := []) : MetricsService :=
  match alookup s.counters name with
  | some c => s.addRecord c value attributes
  | none => s

/-- Model of `recordHistogram`: the value is recorded unchanged; unknown
names silently do nothing. -/
def MetricsService.recordHistogram (s : MetricsService) (name : String)
    (value : Rat) (attributes : AttrMap := []) : MetricsService :=
  match alookup s.histograms name with
  | some h => s.addRecord h value attributes
  | none => s

/-- Model of `setGauge`: unknown names silently do nothing. -/
def MetricsService.setGauge (s : MetricsService) (name : String)
    (value : Rat) (attributes : AttrMap := []) : MetricsService :=
  match alookup s.gauges name with
  | some g => s.addRecord g value attributes
  | none => s

/-- One public `MetricsService` call, for stating lifetime invariants over
arbitrary call sequences. -/
inductive MOp where
  | createCounterOp (name : String) (d u : Option String)
  | createHistogramOp (name : String) (d u : Option String)
  | createGaugeOp (name : String) (d u : Option String)
  | incrementCounterOp (name : String) (v : Rat) (a : AttrMap)
  | recordHistogramOp (name : String) (v : Rat) (a : AttrMap)
  | setGaugeOp (name : String) (v : Rat) (a : AttrMap)
  | incrementHttpRequestsOp (m r : String) (c : Nat)
  | recordHttpRequestDurationOp (d : Rat) (m r : String) (c : Nat)
  | setActiveConnectionsOp (c : Rat)
  | incrementErrorsOp (t : String) (cx : Option String)
  | recordBusinessEventOp (t : String) (v : Rat) (a : AttrMap)

/-- Apply one call to the service state; a thrown creation error leaves the
state unchanged (the caller sees the exception, the service keeps its
state). -/
def MetricsService.applyOp (s : MetricsService) : MOp → MetricsService
  | .createCounterOp n d u =>
      match s.createCounter n d u with
      | .ok p => p.2
      | .error _ => s
  | .createHistogramOp n d u =>
      match s.createHistogram n d u with
      | .ok p => p.2
      | .error _ => s
  | .createGaugeOp n d u =>
      match s.createGauge n d u with
      | .ok p => p.2
      | .error _ => s
  | .incrementCounterOp n v a => s.incrementCounter n v a
  | .recordHistogramOp n v a => s.recordHistogram n v a
  | .setGaugeOp n v a => s.setGauge n v a
  | .incrementHttpRequestsOp m r c => s.incrementHttpRequests m r c
  | .recordHttpRequestDurationOp d m r c => s.recordHttpRequestDuration d m r c
  | .setActiveConnectionsOp c => s.setActiveConnections c
  | .incrementErrorsOp t cx => s.incrementErrors t cx
  | .recordBusinessEventOp t v a => s.recordBusinessEvent t v a

/-- Run a sequence of calls. -/
def MetricsService.runOps (s : MetricsService) : List MOp → MetricsService
  | [] => s
  | op :: r => (s.applyOp op).runOps r

/-- Number of occurrences of a (kind, name) pair in a creation log. -/
def countPair : List (InstrKind × String) → InstrKind × String → Nat
  | [], _ => 0
  | x :: r, y => (if x = y then 1 else 0) + countPair r y

/-- How often the underlying meter's creation method was invoked for this
kind and name. -/
def meterCreateCount (s : MetricsService) (k : InstrKind) (n : String) : Nat :=
  match s.meter with
  | some m => countPair m.createLog (k, n)
  | none => 0

/-- The instrument cache for a kind. -/
def mapFor (s : MetricsService) : InstrKind → List (String × Instrument)
  | .counter => s.counters
  | .histogram => s.histograms
  | .gauge => s.gauges

/-- Invariant tying the meter's creation log to the caches: every (kind,
name) was created at most once, and any created name is cached. -/
def GoodMetrics (s : MetricsService) : Prop :=
  ∀ (k : InstrKind) (n : String),
    meterCreateCount s k n ≤ 1 ∧
      (1 ≤ meterCreateCount s k n → (alookup (mapFor s k) n).isSome = true)

/-- Counting distributes over append. -/
theorem countPair_append (l1 l2 : List (InstrKind × String))
    (y : InstrKind × String) :
    countPair (l1 ++ l2) y = countPair l1 y + countPair l2 y := by
  induction l1 with
  | nil => simp [countPair]
  | cons x r ih => simp [countPair, ih]; ring

/-- A positive count means membership. -/
theorem countPair_pos_mem (l : List (InstrKind × String))
    (y : InstrKind × String) (h : 1 ≤ countPair l y) : y ∈ l := by
  induction l with
  | nil => simp [countPair] at h
  | cons x r ih =>
      by_cases hx : x = y
      · exact hx ▸ List.mem_cons_self x r
      · simp [countPair, hx] at h
        exact List.mem_cons_of_mem x (ih h)

/-- An element that does not occur has count zero. -/
theorem countPair_eq_zero (l : List (InstrKind × String))
    (y : InstrKind × String) (h : y ∉ l) : countPair l y = 0 := by
  induction l with
  | nil => rfl
  | cons x r ih =>
      have hx : x ≠ y := fun he => h (he ▸ List.mem_cons_self x r)
      have hr : y ∉ r := fun hm => h (List.mem_cons_of_mem x hm)
      simp [countPair, hx, ih hr]

/-- In a duplicate-free log every pair occurs at most once. -/
theorem countPair_le_one_of_nodup (l : List (InstrKind × String))
    (hl : l.Nodup) (y : InstrKind × String) : countPair l y ≤ 1 := by
  induction l with
  | nil => simp [countPair]
  | cons x r ih =>
      have hx : x ∉ r := (List.nodup_cons.mp hl).1
      have hr : r.Nodup := (List.nodup_cons.mp hl).2
      by_cases he : x = y
      · subst he
        simp [countPair, countPair_eq_zero r x hx]
      · simp [countPair, he, ih hr]

/-- The invariant only depends on the meter and the three caches. -/
theorem good_congr (s s' : MetricsService) (hm : s'.meter = s.meter)
    (hc : s'.counters = s.counters) (hh : s'.histograms = s.histograms)
    (hg : s'.gauges = s.gauges) (hs : GoodMetrics s) : GoodMetrics s' := by
  intro k n
  have h1 : meterCreateCount s' k n = meterCreateCount s k n := by
    simp [meterCreateCount, hm]
  have h2 : mapFor s' k = mapFor s k := by
    cases k <;> simp [mapFor, hc, hh, hg]
  rw [h1, h2]
  exact hs k n

/-- Core preservation step: creating a not-yet-cached instrument on the
meter and caching it preserves the invariant. -/
theorem good_after_create (s : MetricsService) (m : Meter) (k : InstrKind)
    (n : String) (instr : Instrument) (s' : MetricsService)
    (hme : s.meter = some m)
    (hl : alookup (mapFor s k) n = none)
    (hm' : s'.meter = some ⟨m.nextId + 1, m.createLog ++ [(k, n)]⟩)
    (hmap : ∀ k', mapFor s' k' =
      if k' = k then setEntry (mapFor s k) n instr else mapFor s k')
    (hs : GoodMetrics s) : GoodMetrics s' := by
  intro k' n'
  have hcount : meterCreateCount s' k' n' =
      countPair m.createLog (k', n') + countPair [(k, n)] (k', n') := by
    simp [meterCreateCount, hm', countPair_append]
  have hold : meterCreateCount s k' n' = countPair m.createLog (k', n') := by
    simp [meterCreateCount, hme]
  by_cases hy : ((k, n) : InstrKind × String) = (k', n')
  · have hk : k = k' := congrArg Prod.fst hy
    have hn : n = n' := congrArg Prod.snd hy
    subst hk
    subst hn
    have hzero : meterCreateCount s k n = 0 := by
      by_contra hnz
      have h1 : 1 ≤ meterCreateCount s k n := Nat.one_le_iff_ne_zero.mpr hnz
      have h2 := (hs k n).2 h1
      rw [hl] at h2
      simp at h2
    constructor
    · rw [hcount, ← hold, hzero]
      simp [countPair]
    · intro _
      rw [hmap k]
      simp [alookup_setEntry]
  · have hsing : countPair [(k, n)] (k', n') = 0 := by
      simp [countPair, hy]
    constructor
    · rw [hcount, hsing, ← hold]
      simpa using (hs k' n').1
    · intro h1
      rw [hcount, hsing] at h1
      have h1' : 1 ≤ meterCreateCount s k' n' := by
        rw [hold]
        simpa using h1
      have hsome := (hs k' n').2 h1'
      rw [hmap k']
      by_cases hkk : k' = k
      · subst hkk
        have hnn : ¬n = n' := fun he => hy (by rw [he])
        simp [alookup_setEntry, hnn]
        exact hsome
      · simp [hkk]
        exact hsome

/-- Every public call preserves the creation invariant. -/
theorem applyOp_preserves_good (s : MetricsService) (op : MOp)
    (hs : GoodMetrics s) : GoodMetrics (s.applyOp op) := by
  cases op with
  | createCounterOp n d u =>
      cases hme : s.meter with
      | none =>
          simpa [MetricsService.applyOp, MetricsService.createCounter, hme]
            using hs
      | some m =>
          cases hl : alookup s.counters n with
          | some c =>
              simpa [MetricsService.applyOp, MetricsService.createCounter,
                hme, hl] using hs
          | none =>
              refine good_after_create s m .counter n
                ⟨m.nextId, n, jsOrStr d (n ++ " 的计数器"), jsOrStr u "1"⟩
                _ hme (by simpa [mapFor] using hl) ?_ ?_ hs
              · simp [MetricsService.applyOp, MetricsService.createCounter,
                  hme, hl, Meter.createInstrument]
              · intro k'
                cases k' <;>
                  simp [MetricsService.applyOp, MetricsService.createCounter,
                    hme, hl, Meter.createInstrument, mapFor]
  | createHistogramOp n d u =>
      cases hme : s.meter with
      | none =>
          simpa [MetricsService.applyOp, MetricsService.createHistogram, hme]
            using hs
      | some m =>
          cases hl : alookup s.histograms n with
          | some c =>
              simpa [MetricsService.applyOp, MetricsService.createHistogram,
                hme, hl] using hs
          | none =>
              refine good_after_create s m .histogram n
                ⟨m.nextId, n, jsOrStr d (n ++ " 的直方图"), jsOrStr u "1"⟩
                _ hme (by simpa [mapFor] using hl) ?_ ?_ hs
              · simp [MetricsService.applyOp, MetricsService.createHistogram,
                  hme, hl, Meter.createInstrument]
              · intro k'
                cases k' <;>
                  simp [MetricsService.applyOp,
                    MetricsService.createHistogram, hme, hl,
                    Meter.createInstrument, mapFor]
  | createGaugeOp n d u =>
      cases hme : s.meter with
      | none =>
          simpa [MetricsService.applyOp, MetricsService.createGauge, hme]
            using hs
      | some m =>
          cases hl : alookup s.gauges n with
          | some c =>
              simpa [MetricsService.applyOp, MetricsService.createGauge,
                hme, hl] using hs
          | none =>
              refine good_after_create s m .gauge n
                ⟨m.nextId, n, jsOrStr d (n ++ " 的仪表盘"), jsOrStr u "1"⟩
                _ hme (by simpa [mapFor] using hl) ?_ ?_ hs
              · simp [MetricsService.applyOp, MetricsService.createGauge,
                  hme, hl, Meter.createInstrument]
              · intro k'
                cases k' <;>
                  simp [MetricsService.applyOp, MetricsService.createGauge,
                    hme, hl, Meter.createInstrument, mapFor]
  | incrementCounterOp n v a =>
      refine good_congr s _ ?_ ?_ ?_ ?_ hs <;>
        simp [MetricsService.applyOp, MetricsService.incrementCounter] <;>
        cases alookup s.counters n <;> simp [MetricsService.addRecord]
  | recordHistogramOp n v a =>
      refine good_congr s _ ?_ ?_ ?_ ?_ hs <;>
        simp [MetricsService.applyOp, MetricsService.recordHistogram] <;>
        cases alookup s.histograms n <;> simp [MetricsService.addRecord]
  | setGaugeOp n v a =>
      refine good_congr s _ ?_ ?_ ?_ ?_ hs <;>
        simp [MetricsService.applyOp, MetricsService.setGauge] <;>
        cases alookup s.gauges n <;> simp [MetricsService.addRecord]
  | incrementHttpRequestsOp m r c =>
      refine good_congr s _ ?_ ?_ ?_ ?_ hs <;>
        simp [MetricsService.applyOp, MetricsService.incrementHttpRequests] <;>
        cases s.httpRequestsTotal <;> simp [MetricsService.addRecord]
  | recordHttpRequestDurationOp d m r c =>
      refine good_congr s _ ?_ ?_ ?_ ?_ hs <;>
        simp [MetricsService.applyOp,
          MetricsService.recordHttpRequestDuration] <;>
        cases s.httpRequestDuration <;> simp [MetricsService.addRecord]
  | setActiveConnectionsOp c =>
      refine good_congr s _ ?_ ?_ ?_ ?_ hs <;>
        simp [MetricsService.applyOp, MetricsService.setActiveConnections] <;>
        cases s.activeConnections <;> simp [MetricsService.addRecord]
  | incrementErrorsOp t cx =>
      refine good_congr s _ ?_ ?_ ?_ ?_ hs <;>
        simp [MetricsService.applyOp, MetricsService.incrementErrors] <;>
        cases s.errorCounter <;> simp [MetricsService.addRecord]
  | recordBusinessEventOp t v a =>
      refine good_congr s _ ?_ ?_ ?_ ?_ hs <;>
        simp [MetricsService.applyOp, MetricsService.recordBusinessEvent] <;>
        cases s.businessMetrics <;> simp [MetricsService.addRecord]

/-- Running any call sequence preserves the invariant. -/
theorem runOps_preserves_good (ops : List MOp) (s : MetricsService)
    (hs : GoodMetrics s) : GoodMetrics (s.runOps ops) := by
  induction ops generalizing s with
  | nil => exact hs
  | cons op r ih => exact ih _ (applyOp_preserves_good s op hs)

/-- The freshly constructed and module-initialized service satisfies the
creation invariant, whatever the configuration. -/
theorem good_init (cfg : OpenTelemetryConfig) :
    GoodMetrics ((MetricsService.create cfg).onModuleInit) := by
  cases hb : ((cfg.metrics.bind MetricsConfig.enabled) == some false) with
  | true =>
      intro k n
      simp [MetricsService.create, MetricsService.onModuleInit, hb,
        meterCreateCount]
  | false =>
      have hstate : (MetricsService.create cfg).onModuleInit =
          MetricsService.initializeCommonMetrics { meter := some {} } {} := by
        simp [MetricsService.create, MetricsService.onModuleInit, hb]
      rw [hstate]
      intro k n
      constructor
      · have hnodup : ([(InstrKind.counter, "http_requests_total"),
            (InstrKind.histogram, "http_request_duration_seconds"),
            (InstrKind.gauge, "active_connections"),
            (InstrKind.counter, "errors_total"),
            (InstrKind.counter, "business_events_total")] :
              List (InstrKind × String)).Nodup := by decide
        have hle := countPair_le_one_of_nodup _ hnodup (k, n)
        simpa [MetricsService.initializeCommonMetrics, Meter.createInstrument,
          meterCreateCount] using hle
      · intro h1
        have hcount : meterCreateCount
            (MetricsService.initializeCommonMetrics { meter := some {} } {})
            k n = countPair [(InstrKind.counter, "http_requests_total"),
              (InstrKind.histogram, "http_request_duration_seconds"),
              (InstrKind.gauge, "active_connections"),
              (InstrKind.counter, "errors_total"),
              (InstrKind.counter, "business_events_total")] (k, n) := by
          simp [MetricsService.initializeCommonMetrics, Meter.createInstrument,
            meterCreateCount]
        rw [hcount] at h1
        have hmem := countPair_pos_mem _ _ h1
        simp only [List.mem_cons, List.not_mem_nil, or_false,
          Prod.mk.injEq] at hmem
        rcases hmem with ⟨hk, hn⟩ | ⟨hk, hn⟩ | ⟨hk, hn⟩ | ⟨hk, hn⟩ |
            ⟨hk, hn⟩ <;>
          subst hk <;> subst hn <;>
          simp [MetricsService.initializeCommonMetrics,
            Meter.createInstrument, mapFor, setEntry, alookup]

/-- Claim C5: with an initialized meter, requesting the same named counter
(histogram, gauge) twice returns the same cached instrument both times,
and over the adapter's whole lifetime (any call sequence from the freshly
initialized service) the underlying meter's creation method runs at most
once per kind and name. -/
theorem instrument_caching_idempotent (s : MetricsService) (name : String)
    (d u : Option String) (h : s.meter.isSome = true) :
    (∃ c s₁, s.createCounter name d u = .ok (c, s₁) ∧
      s₁.createCounter name d u = .ok (c, s₁)) ∧
    (∃ hg s₂, s.createHistogram name d u = .ok (hg, s₂) ∧
      s₂.createHistogram name d u = .ok (hg, s₂)) ∧
    (∃ g s₃, s.createGauge name d u = .ok (g, s₃) ∧
      s₃.createGauge name d u = .ok (g, s₃)) ∧
    (∀ (cfg : OpenTelemetryConfig) (ops : List MOp) (k : InstrKind)
        (n : String),
      meterCreateCount (((MetricsService.create cfg).onModuleInit).runOps ops)
        k n ≤ 1) := by
  obtain ⟨m, hm⟩ := Option.isSome_iff_exists.mp h
  refine ⟨?_, ?_, ?_, ?_⟩
  · cases hl : alookup s.counters name with
    | some c =>
        exact ⟨c, s, by simp [MetricsService.createCounter, hm, hl],
          by simp [MetricsService.createCounter, hm, hl]⟩
    | none =>
        refine ⟨(m.createInstrument .counter name
            (jsOrStr d (name ++ " 的计数器")) (jsOrStr u "1")).1,
          { s with
            meter := some (m.createInstrument .counter name
              (jsOrStr d (name ++ " 的计数器")) (jsOrStr u "1")).2,
            counters := setEntry s.counters name
              (m.createInstrument .counter name
                (jsOrStr d (name ++ " 的计数器")) (jsOrStr u "1")).1 },
          ?_, ?_⟩
        · simp [MetricsService.createCounter, hm, hl]
        · simp [MetricsService.createCounter, alookup_setEntry]
  · cases hl : alookup s.histograms name with
    | some c =>
        exact ⟨c, s, by simp [MetricsService.createHistogram, hm, hl],
          by simp [MetricsService.createHistogram, hm, hl]⟩
    | none =>
        refine ⟨(m.createInstrument .histogram name
            (jsOrStr d (name ++ " 的直方图")) (jsOrStr u "1")).1,
          { s with
            meter := some (m.createInstrument .histogram name
              (jsOrStr d (name ++ " 的直方图")) (jsOrStr u "1")).2,
            histograms := setEntry s.histograms name
              (m.createInstrument .histogram name
                (jsOrStr d (name ++ " 的直方图")) (jsOrStr u "1")).1 },
          ?_, ?_⟩
        · simp [MetricsService.createHistogram, hm, hl]
        · simp [MetricsService.createHistogram, alookup_setEntry]
  · cases hl : alookup s.gauges name with
    | some c =>
        exact ⟨c, s, by simp [MetricsService.createGauge, hm, hl],
          by simp [MetricsService.createGauge, hm, hl]⟩
    | none =>
        refine ⟨(m.createInstrument .gauge name
            (jsOrStr d (name ++ " 的仪表盘")) (jsOrStr u "1")).1,
          { s with
            meter := some (m.createInstrument .gauge name
              (jsOrStr d (name ++ " 的仪表盘")) (jsOrStr u "1")).2,
            gauges := setEntry s.gauges name
              (m.createInstrument .gauge name
                (jsOrStr d (name ++ " 的仪表盘")) (jsOrStr u "1")).1 },
          ?_, ?_⟩
        · simp [MetricsService.createGauge, hm, hl]
        · simp [MetricsService.createGauge, alookup_setEntry]
  · intro cfg ops k n
    exact ((runOps_preserves_good ops _ (good_init cfg)) k n).1

/-- Witness for C5: a fresh service with a meter, counter name `x`. -/
theorem instrument_caching_idempotent_witness :
    ∃ c s₁, ({ meter := some {} } : MetricsService).createCounter "x"
        none none = .ok (c, s₁) ∧
      s₁.createCounter "x" none none = .ok (c, s₁) :=
  (instrument_caching_idempotent { meter := some {} } "x" none none rfl).1

/-- Claim C6: when the meter was never initialized, every explicit
instrument-creation method throws; whereas on any service state whose
caches do not contain a name, the convenience recorders for that name
silently leave the state unchanged (and, being total functions of the
state, never throw). -/
theorem disabled_create_throws_unknown_record_noop
    (s t : MetricsService) (n : String) (d u : Option String) (v : Rat)
    (a : AttrMap)
    (hm : s.meter = none)
    (hc : alookup t.counters n = none)
    (hh : alookup t.histograms n = none)
    (hg : alookup t.gauges n = none) :
    s.createCounter n d u = .error disabledErr ∧
    s.createHistogram n d u = .error disabledErr ∧
    s.createGauge n d u = .error disabledErr ∧
    t.incrementCounter n v a = t ∧
    t.recordHistogram n v a = t ∧
    t.setGauge n v a = t := by
  refine ⟨?_, ?_, ?_, ?_, ?_, ?_⟩
  · simp [MetricsService.createCounter, hm]
  · simp [MetricsService.createHistogram, hm]
  · simp [MetricsService.createGauge, hm]
  · simp [MetricsService.incrementCounter, hc]
  · simp [MetricsService.recordHistogram, hh]
  · simp [MetricsService.setGauge, hg]

/-- Witness for C6: a disabled service (no meter) for the creation half,
and a fresh enabled adapter with the never-created name `never_created`
for the recording half. -/
theorem disabled_create_throws_unknown_record_noop_witness :
    ({ meter := none } : MetricsService).createCounter "never_created"
        none none = .error disabledErr ∧
    ({ meter := none } : MetricsService).createHistogram "never_created"
        none none = .error disabledErr ∧
    ({ meter := none } : MetricsService).createGauge "never_created"
        none none = .error disabledErr ∧
    ({ meter := some {} } : MetricsService).incrementCounter "never_created"
        1 [] = { meter := some {} } ∧
    ({ meter := some {} } : MetricsService).recordHistogram "never_created"
        1 [] = { meter := some {} } ∧
    ({ meter := some {} } : MetricsService).setGauge "never_created"
        1 [] = { meter := some {} } :=
  disabled_create_throws_unknown_record_noop { meter := none }
    { meter := some {} } "never_created" none none 1 [] rfl rfl rfl rfl

/-- Claim C9: the HTTP convenience recorder records `duration / 1000`
(seconds) on the HTTP duration histogram, while the general-purpose
`recordHistogram` records the given value unchanged. -/
theorem http_duration_unit_conversion (s : MetricsService) (d v : Rat)
    (method route : String) (c : Nat) (n : String) (a : AttrMap)
    (instr instr2 : Instrument)
    (h1 : s.httpRequestDuration = some instr)
    (h2 : alookup s.histograms n = some instr2) :
    (s.recordHttpRequestDuration d method route c).records =
      s.records ++ [⟨instr.id, d / 1000,
        [("method", .str method), ("route", .str route),
          ("status_code", .str (toString c))]⟩] ∧
    (s.recordHistogram n v a).records = s.records ++ [⟨instr2.id, v, a⟩] := by
  constructor
  · simp [MetricsService.recordHttpRequestDuration, h1,
      MetricsService.addRecord]
  · simp [MetricsService.recordHistogram, h2, MetricsService.addRecord]

/-- Witness for C9: a service holding one HTTP-duration histogram and one
named histogram; a 2500 ms duration records as 5/2 s while
`recordHistogram` keeps 2500 unchanged. -/
theorem http_duration_unit_conversion_witness :
    (({ meter := some {},
        histograms := [("h", ⟨1, "h", "", "1"⟩)],
        httpRequestDuration := some ⟨0, "http_request_duration_seconds",
          "", "s"⟩ } : MetricsService).recordHttpRequestDuration 2500
          "GET" "/x" 200).records =
      [] ++ [⟨0, 2500 / 1000,
        [("method", .str "GET"), ("route", .str "/x"),
          ("status_code", .str (toString 200))]⟩] ∧
    (({ meter := some {},
        histograms := [("h", ⟨1, "h", "", "1"⟩)],
        httpRequestDuration := some ⟨0, "http_request_duration_seconds",
          "", "s"⟩ } : MetricsService).recordHistogram "h" 2500 []).records =
      [] ++ [⟨1, 2500, []⟩] :=
  http_duration_unit_conversion
    { meter := some {},
      histograms := [("h", ⟨1, "h", "", "1"⟩)],
      httpRequestDuration := some ⟨0, "http_request_duration_seconds",
        "", "s"⟩ }
    2500 2500 "GET" "/x" 200 "h" [] ⟨0, "http_request_duration_seconds",
      "", "s"⟩ ⟨1, "h", "", "1"⟩ rfl rfl

/-- A JavaScript value as seen by the interceptors: handler results and
method arguments. `vObj` carries the value's JSON serialization. -/
inductive JVal where
  | vNull
  | vUndefined
  | vBool (b : Bool)
  | vNum (q : Rat)
  | vStr (s : String)
  | vObj (json : String)
deriving DecidableEq

/-- Approximate model of JS number-to-string conversion (exact for
integers; non-integral rationals are rendered in Lean's `num/den` form,
which no claim evaluates). -/
def jsNumToString (q : Rat) : String :=
  if q.den = 1 then toString q.num else toString q

/-- Model of `typeof arg === 'object' ? JSON.stringify(arg) : String(arg)`
(in JS, `typeof null` is `'object'` and `JSON.stringify(null)` is
`"null"`). -/
def serializeJVal : JVal → String
  | .vObj j => j
  | .vNull => "null"
  | .vUndefined => "undefined"
  | .vBool b => cond b "true" "false"
  | .vNum q => jsNumToString q
  | .vStr s => s

/-- The parts of the HTTP request object the interceptors read. -/
structure HttpRequest where
  method : String
  url : String
  routePath : Option String := none
  userAgent : Option String := none
deriving DecidableEq

/-- The part of the HTTP response object the interceptors read. -/
structure HttpResponse where
  statusCode : Option Nat := none
deriving DecidableEq

/-- The parts of the framework execution context the interceptors read:
class name, handler arguments, and the HTTP request/response (absent for
non-HTTP transports). -/
structure ExecCtx where
  className : String
  args : List JVal := []
  request : Option HttpRequest := none
  response : Option HttpResponse := none
deriving DecidableEq

/-- An optional string assigned into an attribute record (`request.route?.path`
may be `undefined`). -/
def optStrAttr : Option String → AttrVal
  | some s => .str s
  | none => .undefinedV

/-- Result of one intercepted invocation: pass the handler's stream through
untouched, wrap it with instrumentation effects, or fail during interceptor
setup (before the handler even runs). -/
inductive InterceptOutcome (σ : Type) where
  | passthrough (result : Except Err JVal)
  | instrumented (result : Except Err JVal) (eff : σ)
  | setupError (e : Err)

/-- The argument-recording loop of the tracing interceptor: skips `null` /
`undefined` arguments, serializes the rest under `args.<name>` with the
caller-provided or positional name. -/
def addArgAttrs (argNames : Option (List String)) :
    AttrMap → Nat → List JVal → AttrMap
  | attrs, _, [] => attrs
  | attrs, i, arg :: rest =>
      let argName := jsOrStr ((argNames.getD []).get? i) ("arg" ++ toString i)
      let attrs' :=
        match arg with
        | .vNull => attrs
        | .vUndefined => attrs
        | _ => setKey attrs ("args." ++ argName) (.str (serializeJVal arg))
      addArgAttrs argNames attrs' (i + 1) rest

/-- The attribute record assembled by the tracing interceptor before the
span starts. -/
def tracingAttributes (topts : TraceMetadata) (ctx : ExecCtx) : AttrMap :=
  let attributes := objSpread [] (topts.attributes.getD [])
  let attributes :=
    setKey attributes "code.function" (.str topts.originalMethodName)
  let attributes := setKey attributes "code.namespace" (.str ctx.className)
  let attributes :=
    if topts.recordArgs.getD false && !ctx.args.isEmpty then
      addArgAttrs topts.argNames attributes 0 ctx.args
    else attributes
  if topts.kind == some .server then
    match ctx.request with
    | some req =>
        let attributes := setKey attributes "http.method" (.str req.method)
        let attributes := setKey attributes "http.url" (.str req.url)
        let attributes :=
          setKey attributes "http.route" (optStrAttr req.routePath)
        setKey attributes "http.user_agent" (optStrAttr req.userAgent)
    | none => attributes
  else attributes

/-- The span operations of the tracing interceptor's success (`tap`)
callback: duration, optional serialized result, server status code
(defaulting to 200), then status OK. -/
def tracingTap (topts : TraceMetadata) (ctx : ExecCtx) (duration : Rat)
    (result : JVal) (span : Span) : Span :=
  let span := span.setAttribute "operation.duration_ms" (.num duration)
  let span :=
    if topts.recordResult.getD false && result != JVal.vUndefined then
      span.setAttribute "result" (.str (serializeJVal result))
    else span
  let span :=
    if topts.kind == some .server then
      match ctx.response with
      | some resp =>
          span.setAttribute "http.status_code"
            (.num ((jsOrNat resp.statusCode 200 : Nat) : Rat))
      | none => span
    else span
  span.setStatus { code := .ok }

/-- The span operations of the tracing interceptor's error (`catchError`)
callback: duration, error name/message/optional stack, server status code
(defaulting to 500), record the exception, then status ERROR with the
error's message. -/
def tracingCatch (topts : TraceMetadata) (ctx : ExecCtx) (duration : Rat)
    (e : Err) (span : Span) : Span :=
  let span := span.setAttribute "operation.duration_ms" (.num duration)
  let span := span.setAttribute "error.name" (.str e.name)
  let span := span.setAttribute "error.message" (.str e.message)
  let span :=
    if jsTruthyStr e.stack then
      span.setAttribute "error.stack" (.str (e.stack.getD ""))
    else span
  let span :=
    if topts.kind == some .server then
      match ctx.response with
      | some resp =>
          span.setAttribute "http.status_code"
            (.num ((jsOrNat resp.statusCode 500 : Nat) : Rat))
      | none => span
    else span
  (span.recordException e).setStatus { code := .error, message := some e.message }

/-- Model of `TracingInterceptor.intercept` for one invocation whose
handler outcome and wall-clock duration are given. The availability flags
model the injected `reflector` and `tracingService` references; `metadata`
models the reflective metadata lookup. The `finalize` operator always ends
the span once the stream settles. -/
def TracingInterceptor.intercept (reflectorAvailable serviceAvailable : Bool)
    (svc : TracingService) (metadata : Option TraceMetadata) (ctx : ExecCtx)
    (handler : Except Err JVal) (duration : Rat) : InterceptOutcome Span :=
  if !reflectorAvailable then .passthrough handler
  else if !serviceAvailable then
    .setupError { id := 0, message := "TracingService is not available" }
  else
    match metadata with
    | none => .passthrough handler
    | some topts =>
        let spanName :=
          jsOrStr topts.name (ctx.className ++ "." ++ topts.originalMethodName)
        let span := svc.startSpan spanName
          { kind := some (topts.kind.getD .internal)
            attributes := some (tracingAttributes topts ctx) }
        match handler with
        | .ok v =>
            .instrumented (.ok v) ((tracingTap topts ctx duration v span).endSpan)
        | .error e =>
            .instrumented (.error e)
              ((tracingCatch topts ctx duration e span).endSpan)

/-- The argument-recording loop of the metrics interceptor: only string,
number and boolean arguments are recorded, raw, under `arg_<name>`. -/
def addArgAttrsMetrics (argNames : Option (List String)) :
    AttrMap → Nat → List JVal → AttrMap
  | attrs, _, [] => attrs
  | attrs, i, arg :: rest =>
      let argName := jsOrStr ((argNames.getD []).get? i) ("arg" ++ toString i)
      let attrs' :=
        match arg with
        | .vStr s => setKey attrs ("arg_" ++ argName) (.str s)
        | .vNum q => setKey attrs ("arg_" ++ argName) (.num q)
        | .vBool b => setKey attrs ("arg_" ++ argName) (.boolV b)
        | _ => attrs
      addArgAttrsMetrics argNames attrs' (i + 1) rest

/-- The attribute record assembled by the metrics interceptor before the
handler runs (`http_route` falls back from `request.route?.path` to
`request.url`). -/
def metricsAttributes (mopts : MetricsMetadata) (ctx : ExecCtx) : AttrMap :=
  let attributes := objSpread [] (mopts.attributes.getD [])
  let attributes := setKey attributes "class" (.str ctx.className)
  let attributes :=
    setKey attributes "method" (.str mopts.originalMethodName)
  let attributes :=
    if mopts.recordArgs.getD false && !ctx.args.isEmpty then
      addArgAttrsMetrics mopts.argNames attributes 0 ctx.args
    else attributes
  match ctx.request with
  | some req =>
      let attributes := setKey attributes "http_method" (.str req.method)
      setKey attributes "http_route" (.str (jsOrStr req.routePath req.url))
  | none => attributes

/-- Final attribute record of the success (`tap`) callback: optional
`status: success` and the response status code defaulting to 200. -/
def metricsFinalAttrsSuccess (mopts : MetricsMetadata) (ctx : ExecCtx)
    (attributes : AttrMap) : AttrMap :=
  let fa := objSpread [] attributes
  let fa :=
    if mopts.recordStatus.getD false then setKey fa "status" (.str "success")
    else fa
  match ctx.response with
  | some resp =>
      setKey fa "http_status_code"
        (.num ((jsOrNat resp.statusCode 200 : Nat) : Rat))
  | none => fa

/-- Final attribute record of the error (`catchError`) callback: error
type/message, optional `status: error`, response status code defaulting to
500. -/
def metricsFinalAttrsError (mopts : MetricsMetadata) (ctx : ExecCtx)
    (attributes : AttrMap) (e : Err) : AttrMap :=
  let fa :=
    setKey (setKey (objSpread [] attributes) "error_type" (.str e.name))
      "error_message" (.str e.message)
  let fa :=
    if mopts.recordStatus.getD false then setKey fa "status" (.str "error")
    else fa
  match ctx.response with
  | some resp =>
      setKey fa "http_status_code"
        (.num ((jsOrNat resp.statusCode 500 : Nat) : Rat))
  | none => fa

/-- The counter block of both metrics-interceptor callbacks: try
`createCounter` and `add`; a caught error is re-thrown only when its
message contains `add failed` (the instrument's own failure), every other
caught error falls back to the increment-by-name path. -/
def counterFinalize (svc : MetricsService) (name className methodName : String)
    (fa : AttrMap) : Except Err MetricsService :=
  match svc.createCounter name
      (some ("Counter for " ++ className ++ "." ++ methodName)) (some "1") with
  | .ok p => .ok (p.2.addRecord p.1 1 fa)
  | .error e =>
      if jsIncludes e.message "add failed" then .error e
      else .ok (svc.incrementCounter name 1 fa)

/-- The histogram block of both metrics-interceptor callbacks, mirroring
`counterFinalize` with `record failed` as the re-thrown marker. -/
def histogramFinalize (svc : MetricsService)
    (name className methodName : String) (duration : Rat) (fa : AttrMap) :
    Except Err MetricsService :=
  match svc.createHistogram name
      (some ("Duration histogram for " ++ className ++ "." ++ methodName))
      (some "ms") with
  | .ok p => .ok (p.2.addRecord p.1 duration fa)
  | .error e =>
      if jsIncludes e.message "record failed" then .error e
      else .ok (svc.recordHistogram name duration fa)

/-- Run the counter block then the histogram block (each only when its
name is truthy in the metadata); a throw from the counter block skips the
histogram block. Returns the error that escaped the callback, if any,
together with the service state reached. -/
def metricsFinalize (svc : MetricsService) (mopts : MetricsMetadata)
    (className : String) (duration : Rat) (fa : AttrMap) :
    Option Err × MetricsService :=
  let step1 : Except Err MetricsService :=
    if jsTruthyStr mopts.counter then
      counterFinalize svc (mopts.counter.getD "") className
        mopts.originalMethodName fa
    else .ok svc
  match step1 with
  | .error e => (some e, svc)
  | .ok svc1 =>
      if jsTruthyStr mopts.histogram then
        match histogramFinalize svc1 (mopts.histogram.getD "") className
            mopts.originalMethodName duration fa with
        | .error e => (some e, svc1)
        | .ok svc2 => (none, svc2)
      else (none, svc1)

/-- Model of `MetricsInterceptor.intercept` for one invocation with given
handler outcome and duration. An error escaping the success callback turns
the stream into that error; an error escaping the error callback replaces
the handler's error; otherwise the handler's outcome is propagated
unchanged. -/
def MetricsInterceptor.intercept (reflectorAvailable serviceAvailable : Bool)
    (svc : MetricsService) (metadata : Option MetricsMetadata) (ctx : ExecCtx)
    (handler : Except Err JVal) (duration : Rat) :
    InterceptOutcome MetricsService :=
  if !reflectorAvailable then .passthrough handler
  else if !serviceAvailable then
    .setupError { id := 0, message := "MetricsService is not available" }
  else
    match metadata with
    | none => .passthrough handler
    | some mopts =>
        let attributes := metricsAttributes mopts ctx
        match handler with
        | .ok v =>
            let fa := metricsFinalAttrsSuccess mopts ctx attributes
            match metricsFinalize svc mopts ctx.className duration fa with
            | (some e, svc') => .instrumented (.error e) svc'
            | (none, svc') => .instrumented (.ok v) svc'
        | .error e =>
            let fa := metricsFinalAttrsError mopts ctx attributes e
            match metricsFinalize svc mopts ctx.className duration fa with
            | (some fe, svc') => .instrumented (.error fe) svc'
            | (none, svc') => .instrumented (.error e) svc'

/-- Claim C3: when an invocation with trace metadata fails, the error
propagated by the tracing interceptor is the very error object the handler
threw, the exception is recorded on the span, the span status is ERROR
with that error's message, and for server-kind spans with a response
lacking a status code the `http.status_code` attribute defaults to 500. -/
theorem tracing_interceptor_error_path (svc : TracingService)
    (topts : TraceMetadata) (ctx : ExecCtx) (e : Err) (duration : Rat) :
    ∃ sp : Span,
      TracingInterceptor.intercept true true svc (some topts) ctx
          (.error e) duration = .instrumented (.error e) sp ∧
      SpanEvent.recordException e ∈ sp.events ∧
      SpanEvent.setStatus { code := .error, message := some e.message } ∈
        sp.events ∧
      (∀ resp : HttpResponse, topts.kind = some SpanKind.server →
        ctx.response = some resp → resp.statusCode = none →
        SpanEvent.setAttr "http.status_code" (.num 500) ∈ sp.events) := by
  refine ⟨_, rfl, ?_, ?_, ?_⟩
  · simp [Span.endSpan, tracingCatch, Span.recordException, Span.setStatus,
      List.mem_append]
  · simp [Span.endSpan, tracingCatch, Span.recordException, Span.setStatus,
      List.mem_append]
  · intro resp hk hresp hsc
    simp [Span.endSpan, tracingCatch, hk, hresp, hsc, jsOrNat,
      Span.setAttribute, Span.recordException, Span.setStatus,
      List.mem_append]

/-- Witness for C3: a server-kind trace on a context whose response has no
status code. -/
theorem tracing_interceptor_error_path_witness :
    ∃ sp : Span,
      TracingInterceptor.intercept true true ⟨true⟩
          (some { kind := some SpanKind.server, originalMethodName := "m" })
          { className := "C", response := some { statusCode := none } }
          (.error ⟨3, "Error", "boom", none⟩) 7 =
        .instrumented (.error ⟨3, "Error", "boom", none⟩) sp ∧
      SpanEvent.recordException ⟨3, "Error", "boom", none⟩ ∈ sp.events ∧
      SpanEvent.setStatus { code := .error, message := some "boom" } ∈
        sp.events ∧
      SpanEvent.setAttr "http.status_code" (.num 500) ∈ sp.events := by
  obtain ⟨sp, h1, h2, h3, h4⟩ := tracing_interceptor_error_path ⟨true⟩
    { kind := some SpanKind.server, originalMethodName := "m" }
    { className := "C", response := some { statusCode := none } }
    ⟨3, "Error", "boom", none⟩ 7
  exact ⟨sp, h1, h2, h3, h4 { statusCode := none } rfl rfl rfl⟩

/-- Claim C4: an invocation without attached metadata is passed through
unchanged by both interceptors — the handler's stream is returned as is,
with no span started and no metric recorded. -/
theorem interceptor_no_metadata_passthrough (svcT : TracingService)
    (svcM : MetricsService) (ctx : ExecCtx) (handler : Except Err JVal)
    (duration : Rat) :
    TracingInterceptor.intercept true true svcT none ctx handler duration =
      .passthrough handler ∧
    MetricsInterceptor.intercept true true svcM none ctx handler duration =
      .passthrough handler :=
  ⟨rfl, rfl⟩

/-- Claim C10: with no reflector both interceptors pass every call through;
with a reflector but no service they throw their "not available" error on
every call, metadata or not. -/
theorem interceptor_dependency_asymmetry (svcAvailT svcAvailM : Bool)
    (svcT : TracingService) (svcM : MetricsService)
    (mdT : Option TraceMetadata) (mdM : Option MetricsMetadata)
    (ctx : ExecCtx) (handler : Except Err JVal) (duration : Rat) :
    TracingInterceptor.intercept false svcAvailT svcT mdT ctx handler
        duration = .passthrough handler ∧
    MetricsInterceptor.intercept false svcAvailM svcM mdM ctx handler
        duration = .passthrough handler ∧
    TracingInterceptor.intercept true false svcT mdT ctx handler duration =
      .setupError { id := 0, message := "TracingService is not available" } ∧
    MetricsInterceptor.intercept true false svcM mdM ctx handler duration =
      .setupError { id := 0, message := "MetricsService is not available" } :=
  ⟨rfl, rfl, rfl, rfl⟩

/-- Claim C8: when instrument creation fails during finalization (the only
creation failure the service produces is the disabled-meter error), both
metrics-interceptor blocks catch the error and fall back to the by-name
recording path instead of propagating it; the fallback silently no-ops
when the name was never cached; and the intercepted call still delivers
the handler's own outcome. -/
theorem metrics_interceptor_creation_fallback (svc : MetricsService)
    (cname hname className methodName : String) (fa : AttrMap)
    (duration : Rat) (hm : svc.meter = none) :
    counterFinalize svc cname className methodName fa =
      .ok (svc.incrementCounter cname 1 fa) ∧
    histogramFinalize svc hname className methodName duration fa =
      .ok (svc.recordHistogram hname duration fa) ∧
    (alookup svc.counters cname = none →
      svc.incrementCounter cname 1 fa = svc) ∧
    (alookup svc.histograms hname = none →
      svc.recordHistogram hname duration fa = svc) ∧
    (∀ (mopts : MetricsMetadata) (v : JVal) (ctx : ExecCtx),
      MetricsInterceptor.intercept true true svc (some mopts) ctx (.ok v)
          duration =
        .instrumented (.ok v)
          (metricsFinalize svc mopts ctx.className duration
            (metricsFinalAttrsSuccess mopts ctx
              (metricsAttributes mopts ctx))).2) := by
  have hadd : jsIncludes disabledErr.message "add failed" = false := by decide
  have hrec : jsIncludes disabledErr.message "record failed" = false := by
    decide
  have hcf : ∀ (nm cn mn : String) (fa' : AttrMap),
      counterFinalize svc nm cn mn fa' =
        .ok (svc.incrementCounter nm 1 fa') := by
    intro nm cn mn fa'
    simp [counterFinalize, MetricsService.createCounter, hm, hadd]
  have hmeter_inc : ∀ (n : String) (v' : Rat) (a : AttrMap),
      (svc.incrementCounter n v' a).meter = svc.meter := by
    intro n v' a
    unfold MetricsService.incrementCounter
    cases alookup svc.counters n <;> rfl
  have hhf : ∀ (t : MetricsService) (nm cn mn : String) (d' : Rat)
      (fa' : AttrMap), t.meter = none →
      histogramFinalize t nm cn mn d' fa' =
        .ok (t.recordHistogram nm d' fa') := by
    intro t nm cn mn d' fa' hmt
    simp [histogramFinalize, MetricsService.createHistogram, hmt, hrec]
  have hfin : ∀ (mopts : MetricsMetadata) (cn : String) (fa' : AttrMap),
      (metricsFinalize svc mopts cn duration fa').1 = none := by
    intro mopts cn fa'
    unfold metricsFinalize
    by_cases h1 : jsTruthyStr mopts.counter
    · rw [if_pos h1, hcf]
      by_cases h2 : jsTruthyStr mopts.histogram
      · have hm1 : (svc.incrementCounter (mopts.counter.getD "") 1
            fa').meter = none := by rw [hmeter_inc]; exact hm
        simp only [if_pos h2, hhf _ _ _ _ _ _ hm1]
      · simp only [if_neg h2]
    · rw [if_neg h1]
      by_cases h2 : jsTruthyStr mopts.histogram
      · simp only [if_pos h2, hhf _ _ _ _ _ _ hm]
      · simp only [if_neg h2]
  refine ⟨hcf cname className methodName fa, hhf svc hname className
    methodName duration fa hm, ?_, ?_, ?_⟩
  · intro hc
    simp [MetricsService.incrementCounter, hc]
  · intro hh
    simp [MetricsService.recordHistogram, hh]
  · intro mopts v ctx
    rcases hres : metricsFinalize svc mopts ctx.className duration
        (metricsFinalAttrsSuccess mopts ctx (metricsAttributes mopts ctx))
      with ⟨o, s'⟩
    have ho : o = none := by
      have h := hfin mopts ctx.className
        (metricsFinalAttrsSuccess mopts ctx (metricsAttributes mopts ctx))
      rw [hres] at h
      exact h
    subst ho
    simp [MetricsInterceptor.intercept, hres]

/-- Witness for C8: a service with no meter, counter `c`, histogram `h`. -/
theorem metrics_interceptor_creation_fallback_witness :
    counterFinalize { meter := none } "c" "K" "m" [] =
      .ok (MetricsService.incrementCounter { meter := none } "c" 1 []) ∧
    histogramFinalize { meter := none } "h" "K" "m" 5 [] =
      .ok (MetricsService.recordHistogram { meter := none } "h" 5 []) ∧
    MetricsService.incrementCounter { meter := none } "c" 1 [] =
      { meter := none } ∧
    MetricsService.recordHistogram { meter := none } "h" 5 [] =
      { meter := none } := by
  obtain ⟨h1, h2, h3, h4, _⟩ :=
    metrics_interceptor_creation_fallback { meter := none } "c" "h" "K" "m"
      [] 5 rfl
  exact ⟨h1, h2, h3 rfl, h4 rfl⟩

/-- Numeric value of a digit list (base 10). -/
def digitsVal (ds : List Char) : Nat :=
  ds.foldl (fun a c => a * 10 + (c.toNat - 48)) 0

/-- Model of JS `parseFloat` on plain decimal strings: skip leading
whitespace, optional sign, digits with an optional fraction, ignore any
trailing garbage; `NaN` when no digit is found. Exponent forms and
`Infinity` are not modelled (no configuration key in this code feeds them
meaningfully). -/
def parseFloatModel (s : String) : JSNumber :=
  let cs := s.toList.dropWhile
    (fun c => c = ' ' || c = '\t' || c = '\n' || c = '\r')
  let p : Int × List Char :=
    match cs with
    | '-' :: r => (-1, r)
    | '+' :: r => (1, r)
    | _ => (1, cs)
  let intDigits := p.2.takeWhile Char.isDigit
  let rest := p.2.drop intDigits.length
  let fracDigits :=
    match rest with
    | '.' :: r => r.takeWhile Char.isDigit
    | _ => []
  if intDigits.isEmpty && fracDigits.isEmpty then .nan
  else .val ((p.1 : Rat) * ((digitsVal intDigits : Rat) +
    (digitsVal fracDigits : Rat) / ((10 : Rat) ^ fracDigits.length)))

/-- Model of JS `parseInt` (radix 10) on plain decimal strings: skip
leading whitespace, optional sign, integer digits, ignore trailing
garbage; `NaN` when no digit is found. -/
def parseIntModel (s : String) : JSNumber :=
  let cs := s.toList.dropWhile
    (fun c => c = ' ' || c = '\t' || c = '\n' || c = '\r')
  let p : Int × List Char :=
    match cs with
    | '-' :: r => (-1, r)
    | '+' :: r => (1, r)
    | _ => (1, cs)
  let intDigits := p.2.takeWhile Char.isDigit
  if intDigits.isEmpty then .nan
  else .val ((p.1 : Rat) * (digitsVal intDigits : Nat))

/-- Model of `createOpenTelemetryConfigFromEnv()`, with the process
environment as a function from variable name to optional value. -/
def createOpenTelemetryConfigFromEnv (env : String → Option String) :
    OpenTelemetryConfig :=
  { serviceName := jsOrStr (env "OTEL_SERVICE_NAME")
      (jsOrStr (env "npm_package_name") "unknown-service")
    serviceVersion := some (jsOrStr (env "OTEL_SERVICE_VERSION")
      (jsOrStr (env "npm_package_version") "1.0.0"))
    environment := some (jsOrStr (env "NODE_ENV")
      (jsOrStr (env "ENVIRONMENT") "development"))
    otlpEndpoint := env "OTEL_EXPORTER_OTLP_ENDPOINT"
    jaegerEndpoint := env "OTEL_EXPORTER_JAEGER_ENDPOINT"
    prometheusEndpoint := env "OTEL_EXPORTER_PROMETHEUS_ENDPOINT"
    logging := some
      { console := some (!(env "OTEL_LOG_CONSOLE" == some "false"))
        file := some (!(env "OTEL_LOG_FILE" == some "false"))
        logDir := some (jsOrStr (env "OTEL_LOG_DIR") "./logs")
        level := some (jsOrStr (env "OTEL_LOG_LEVEL") "info")
        maxSize := some (jsOrStr (env "OTEL_LOG_MAX_SIZE") "20m")
        maxFiles := some (jsOrStr (env "OTEL_LOG_MAX_FILES") "14d")
        datePattern := some (jsOrStr (env "OTEL_LOG_DATE_PATTERN")
          "YYYY-MM-DD") }
    tracing := some
      { enabled := some (!(env "OTEL_TRACING_ENABLED" == some "false"))
        sampleRate := some
          (if jsTruthyStr (env "OTEL_TRACING_SAMPLE_RATE") then
            parseFloatModel ((env "OTEL_TRACING_SAMPLE_RATE").getD "")
          else .val 1) }
    metrics := some
      { enabled := some (!(env "OTEL_METRICS_ENABLED" == some "false"))
        interval := some
          (if jsTruthyStr (env "OTEL_METRICS_INTERVAL") then
            parseIntModel ((env "OTEL_METRICS_INTERVAL").getD "")
          else .val 30000) } }

/-- Model of the exported `DEFAULT_OPENTELEMETRY_CONFIG` literal. -/
def DEFAULT_OPENTELEMETRY_CONFIG : OpenTelemetryConfig :=
  { serviceName := "nestjs-app"
    serviceVersion := some "1.0.0"
    environment := some "development"
    logging := some
      { console := some true
        file := some true
        logDir := some "./logs"
        level := some "info"
        maxSize := some "20m"
        maxFiles := some "14d"
        datePattern := some "YYYY-MM-DD" }
    tracing := some { enabled := some true, sampleRate := some (.val 1) }
    metrics := some { enabled := some true, interval := some (.val 30000) } }

/-- Claim C7: with no environment variables set,
`createOpenTelemetryConfigFromEnv()` yields the fully-populated default
configuration — service name `unknown-service`, sample rate 1.0, metrics
interval 30000, log level `info`, and every other documented default;
absence of a value is never an error. -/
theorem config_from_env_defaults :
    createOpenTelemetryConfigFromEnv (fun _ => none) =
      { serviceName := "unknown-service"
        serviceVersion := some "1.0.0"
        environment := some "development"
        otlpEndpoint := none
        jaegerEndpoint := none
        prometheusEndpoint := none
        logging := some
          { console := some true
            file := some true
            logDir := some "./logs"
            level := some "info"
            maxSize := some "20m"
            maxFiles := some "14d"
            datePattern := some "YYYY-MM-DD" }
        tracing := some { enabled := some true, sampleRate := some (.val 1) }
        metrics := some
          { enabled := some true, interval := some (.val 30000) } } := by
  rfl
